import Mathlib

/-!
Shallow embedding of the react-native-pdf-viewer native components.

The Android viewer (android/.../PdfViewer.kt) is embedded as pure state
passing functions over an explicit view state; float arithmetic on scale
values is modelled exactly with rationals (every constant involved, 0.5,
1.0, 2.0, 4.0, 0.01, is representable, and no comparison in the proofs
sits on a rounding boundary).  The iOS viewer (HybridPdfViewer.swift) is
embedded for the functions the claims cite.  Effectful pieces (network,
disk, coroutines) are modelled by explicit environments and by step
relations on the state, one step per source level operation.
-/

namespace PdfViewer

/-- Events delivered to the host shell, one constructor per callback of the
Kotlin viewer (onLoadComplete, onPageChange, onScaleChange, onError,
onThumbnailGenerated, onLoadingChange).  The payloads are exactly the
arguments the Kotlin code passes to the callback. -/
inductive Event where
  | loadComplete (pageCount pageWidth pageHeight : Int)
  | pageChange (page pageCount : Int)
  | scaleChange (scale : Rat)
  | error (message code : String)
  | thumbnailGenerated (page : Int) (uri : String)
  | loadingChange (isLoading : Bool)
  deriving DecidableEq, Repr

/-- The mutable fields of the Android PdfViewer that the navigation and
zoom entry points read and write.  pageCount = none models
pdfRenderer == null (no document loaded); some n models a loaded renderer
with n pages. -/
structure AndroidState where
  pageCount : Option Int
  currentScale : Rat
  minScale : Rat
  maxScale : Rat
  enableZoom : Bool
  translateX : Rat
  translateY : Rat
  viewWidth : Rat
  viewHeight : Rat
  scrollRange : Rat
  deriving DecidableEq, Repr

/-- Kotlin coerceIn(lo, hi).  Every call site in the viewer satisfies
lo ≤ hi (Kotlin throws otherwise), and under that hypothesis this equals
the Kotlin result. -/
def coerceIn (x lo hi : Rat) : Rat := max lo (min hi x)

/-- applyTranslation(dx, dy): clamps the accumulated pan offsets into the
range allowed by the scaled content size (PdfViewer.kt lines 449-462). -/
def applyTranslation (s : AndroidState) (dx dy : Rat) : AndroidState :=
  let scaledWidth := s.viewWidth * s.currentScale
  let scaledHeight := s.scrollRange * s.currentScale
  let maxTranslateX := (scaledWidth - s.viewWidth) / 2
  let maxTranslateY := (scaledHeight - s.viewHeight) / 2
  { s with
      translateX := coerceIn (s.translateX + dx) (-maxTranslateX) maxTranslateX
      translateY := coerceIn (s.translateY + dy) (-maxTranslateY) maxTranslateY }

/-- applyZoomTransform(focusX, focusY): at scale ≤ 1 the pan offsets are
zeroed, otherwise the current offsets are re-clamped (lines 464-479).  The
pivot and the RecyclerView scale properties are view layer state and are
not part of the embedded state. -/
def applyZoomTransform (s : AndroidState) : AndroidState :=
  if s.currentScale ≤ 1 then { s with translateX := 0, translateY := 0 }
  else applyTranslation s 0 0

/-- resetZoomTransform(): scale back to 1.0 and both pan offsets to 0
(lines 481-491). -/
def resetZoomTransform (s : AndroidState) : AndroidState :=
  { s with currentScale := 1, translateX := 0, translateY := 0 }

/-- emitPageChange(page) (lines 1259-1262): returns without emitting when
no renderer is loaded; otherwise invokes onPageChangeCallback with
(page + 1, pageCount).  Note the + 1. -/
def emitPageChange (s : AndroidState) (page : Int) : List Event :=
  match s.pageCount with
  | none => []
  | some n => [Event.pageChange (page + 1) n]

/-- The message built for an invalid page index (lines 782 and 845). -/
def invalidPageMessage (page maxIndex : Int) : String :=
  "Invalid page: " ++ toString page ++ ". Valid range: 0-" ++ toString maxIndex

/-- Result of one goToPage call: the state afterwards, the events emitted
during the call in order, and the position handed to
recyclerView.smoothScrollToPosition if any. -/
structure GoToPageOutcome where
  state : AndroidState
  events : List Event
  scrolledTo : Option Int
  deriving DecidableEq, Repr

/-- goToPage(page) (lines 778-799).  Not loaded: NOT_LOADED error.  Index
outside 0 until pageCount: INVALID_PAGE error, no scroll, no page change.
Valid index: if currentScale differs from 1.0, resetZoomTransform and a
scale change event with value 1.0 first; then the scroll is posted and
emitPageChange(page) runs. -/
def goToPage (s : AndroidState) (page : Int) : GoToPageOutcome :=
  match s.pageCount with
  | none => ⟨s, [Event.error "PDF not loaded" "NOT_LOADED"], none⟩
  | some n =>
    if page < 0 ∨ n ≤ page then
      ⟨s, [Event.error (invalidPageMessage page (n - 1)) "INVALID_PAGE"], none⟩
    else
      let zoomReset :=
        if s.currentScale ≠ 1 then (resetZoomTransform s, [Event.scaleChange 1])
        else (s, ([] : List Event))
      ⟨zoomReset.1, zoomReset.2 ++ emitPageChange zoomReset.1 page, some page⟩

/-- Result of one setScale call. -/
structure SetScaleOutcome where
  state : AndroidState
  events : List Event
  deriving DecidableEq, Repr

/-- setScale(scale, focusX, focusY) (lines 801-816).  Zoom disabled:
ZOOM_DISABLED error.  Otherwise clamp into [minScale, maxScale]; if the
clamped value is within 0.01 of the current scale the call is a no-op
with no event; otherwise store the clamped value, apply the transform and
emit one scale change event carrying it.  The focus point only moves the
view pivot and does not enter the embedded state. -/
def setScale (s : AndroidState) (scale : Rat) : SetScaleOutcome :=
  if s.enableZoom = false then ⟨s, [Event.error "Zoom is disabled" "ZOOM_DISABLED"]⟩
  else
    let clampedScale := coerceIn scale s.minScale s.maxScale
    if |clampedScale - s.currentScale| < 1 / 100 then ⟨s, []⟩
    else
      ⟨applyZoomTransform { s with currentScale := clampedScale },
       [Event.scaleChange clampedScale]⟩

/-- The Android viewer right after construction: no document, scale 1.0,
default bounds 0.5 and 4.0, zoom enabled, offsets zero, no layout yet. -/
def initialAndroidState : AndroidState :=
  { pageCount := none, currentScale := 1, minScale := 1 / 2, maxScale := 4,
    enableZoom := true, translateX := 0, translateY := 0,
    viewWidth := 0, viewHeight := 0, scrollRange := 0 }

/-- A loaded five page document in a laid out view. -/
def loadedState5 : AndroidState :=
  { initialAndroidState with
      pageCount := some 5, viewWidth := 1080, viewHeight := 1920,
      scrollRange := 9600 }

/-- Abstract environment observed by one downloadPdf call (lines 695-733):
whether the cache file pdf_hash.pdf exists, whether isCacheValid holds for
it (age below CACHE_VALIDITY_MS), and whether the network fetch (open
connection plus body copy) succeeds.  fetchOk = false covers connect and
read timeouts as well as every other exception of the fetch. -/
structure NetworkEnv where
  cacheExists : Bool
  cacheFresh : Bool
  fetchOk : Bool
  deriving DecidableEq, Repr

/-- Which file downloadPdf hands back: the existing cache file, or the
freshly downloaded bytes that were written to pdf_hash_temp.pdf and then
renamed onto pdf_hash.pdf. -/
inductive ResolvedFile where
  | cached
  | downloaded
  deriving DecidableEq, Repr

/-- Either a returned file or the fetch exception propagating out of
downloadPdf (and from there into the loadDocument error handlers). -/
inductive DownloadResult where
  | ok (file : ResolvedFile)
  | exceptionPropagated
  deriving DecidableEq, Repr

/-- Result of one downloadPdf call, plus whether a fetch was attempted and
whether the temp file was renamed onto the cache entry. -/
structure DownloadOutcome where
  result : DownloadResult
  fetchAttempted : Bool
  renamedTempOntoCache : Bool
  deriving DecidableEq, Repr

/-- downloadPdf (lines 695-733).  Fresh cache: return it with no fetch.
Otherwise fetch into the temp file; on success delete the old cache file
and rename the temp file onto it; on any exception delete the temp file
and return the stale cache file if one exists, rethrowing only when none
does. -/
def downloadPdf (env : NetworkEnv) : DownloadOutcome :=
  if env.cacheExists && env.cacheFresh then
    ⟨DownloadResult.ok ResolvedFile.cached, false, false⟩
  else if env.fetchOk then
    ⟨DownloadResult.ok ResolvedFile.downloaded, true, true⟩
  else if env.cacheExists then
    ⟨DownloadResult.ok ResolvedFile.cached, true, false⟩
  else
    ⟨DownloadResult.exceptionPropagated, true, false⟩

/-- What the Android resolver decides to do with a source locator:
open some local path directly as a file, or run the download path. -/
inductive SourceAction where
  | openLocalFile (path : String)
  | downloadRemote (uri : String)
  deriving DecidableEq, Repr

/-- Kotlin String.startsWith, computed on the underlying character
lists. -/
def kotlinStartsWith (s marker : String) : Bool :=
  marker.data.isPrefixOf s.data

/-- downloadOrGetFile (lines 687-693).  A locator starting with file://
is opened at the stripped path (Kotlin removePrefix drops the seven
marker characters); http:// and https:// go through downloadPdf; every
other locator, scheme or not, falls to the else branch and is opened
directly as File(uri).  No branch emits an unsupported scheme error. -/
def downloadOrGetFile (uri : String) : SourceAction :=
  if kotlinStartsWith uri "file://" then SourceAction.openLocalFile (uri.drop 7)
  else if kotlinStartsWith uri "http://" || kotlinStartsWith uri "https://" then
    SourceAction.downloadRemote uri
  else SourceAction.openLocalFile uri

/-- A Foundation URL as the iOS code reads it: its scheme and whether it
is a file URL. -/
structure ParsedURL where
  scheme : Option String
  isFileURL : Bool
  deriving DecidableEq, Repr

/-- resolveURL(from:) (HybridPdfViewer.swift): when URL(string: source)
parses and carries a scheme, that URL is used; otherwise
URL(fileURLWithPath: source), which is a file URL with scheme file.  The
argument is the result of URL(string: source). -/
def resolveURL (parsed : Option ParsedURL) : ParsedURL :=
  match parsed with
  | some url => if url.scheme.isSome then url else ⟨some "file", true⟩
  | none => ⟨some "file", true⟩

/-- Route chosen by the iOS loadDocument scheme guard. -/
inductive IosRoute where
  | local
  | remote
  | unsupportedScheme (scheme : String)
  deriving DecidableEq, Repr

/-- The scheme guard of iOS loadDocument: file URLs load locally, http and
https load remotely, anything else emits the unsupported scheme error and
never opens the locator. -/
def iosSchemeGuard (url : ParsedURL) : IosRoute :=
  let scheme := url.scheme.getD ""
  if url.isFileURL || (scheme == "http" || scheme == "https") then
    if url.isFileURL then IosRoute.local else IosRoute.remote
  else IosRoute.unsupportedScheme scheme

/-- iOS setScale (HybridPdfViewer.swift): throws when zoom is disabled,
otherwise stores max(minScale, min(maxScale, scale)) into the view scale
factor.  The optional properties default to 0.5, 4.0 and enabled. -/
def iosSetScale (minScale maxScale : Option Rat) (enableZoom : Option Bool)
    (scale : Rat) : Except String Rat :=
  if (enableZoom.getD true) = false then Except.error "ZOOM_DISABLED"
  else Except.ok (max (minScale.getD (1 / 2)) (min (maxScale.getD 4) scale))

/-- State touched by the page render scheduler: the activeRenderJobs map
as an association list from page index to a unique job id, the id counter
that makes launched coroutines distinguishable, the bitmapCache as an
association list from page index to a bitmap identifier, the current
scale read by the OOM handler, and the emitted events. -/
structure RenderState where
  jobs : List (Nat × Nat)
  nextJobId : Nat
  cache : List (Nat × Nat)
  currentScale : Rat
  events : List Event
  deriving DecidableEq, Repr

/-- activeRenderJobs.containsKey(pageIndex). -/
def hasJob (s : RenderState) (i : Nat) : Bool :=
  s.jobs.any (fun p => p.1 == i)

/-- bitmapCache.get for a page index key. -/
def cacheLookup (s : RenderState) (i : Nat) : Option Nat :=
  (s.cache.find? (fun p => p.1 == i)).map (fun p => p.2)

/-- startPageRender(pageIndex) (lines 1018-1043): under the map lock, a
request for an index already in the map returns without launching
anything; otherwise a new job is launched and recorded in the map. -/
def startPageRender (s : RenderState) (i : Nat) : RenderState :=
  if hasJob s i then s
  else { s with jobs := (i, s.nextJobId) :: s.jobs, nextJobId := s.nextJobId + 1 }

/-- cancelAllRenderJobs (lines 767-772): cancel every job and clear the
map. -/
def cancelAllRenderJobs (s : RenderState) : RenderState :=
  { s with jobs := [] }

/-- How one render job body ends: a bitmap, an OutOfMemoryError caught by
renderPage, or any other exception (renderPage returns null on those). -/
inductive RenderOutcome where
  | success (bitmap : Nat)
  | outOfMemory
  | renderError
  deriving DecidableEq, Repr

/-- The OOM error message of handleOutOfMemoryError, naming the current
scale (line 1112). -/
def oomMessage (scale : Rat) : String :=
  "Out of memory at zoom level " ++ toString scale ++ "x. Try reducing zoom."

/-- handleOutOfMemoryError (lines 1106-1114): evict the entire bitmap
cache and emit the OOM error event naming the current scale. -/
def handleOutOfMemoryError (s : RenderState) : RenderState :=
  { s with cache := [],
           events := Event.error (oomMessage s.currentScale) "OOM_ERROR" :: s.events }

/-- The end of the job launched by startPageRender for page i: on success
the bitmap is put into the cache; on OutOfMemoryError renderPage runs
handleOutOfMemoryError and returns null, so nothing is cached and no new
job is launched; on any other exception nothing is cached.  The finally
block then removes the job from the map in every case. -/
def finishPageRender (s : RenderState) (i : Nat) (outcome : RenderOutcome) :
    RenderState :=
  let afterBody :=
    match outcome with
    | RenderOutcome.success bitmap => { s with cache := (i, bitmap) :: s.cache }
    | RenderOutcome.outOfMemory => handleOutOfMemoryError s
    | RenderOutcome.renderError => s
  { afterBody with jobs := afterBody.jobs.filter (fun p => p.1 != i) }

/-- One scheduler level step: a startPageRender call, the completion of a
launched job, or cancelAllRenderJobs. -/
inductive RenderOp where
  | start (i : Nat)
  | finish (i : Nat) (outcome : RenderOutcome)
  | cancelAll
  deriving DecidableEq, Repr

/-- Interpret one RenderOp on the scheduler state. -/
def renderStep (s : RenderState) (op : RenderOp) : RenderState :=
  match op with
  | RenderOp.start i => startPageRender s i
  | RenderOp.finish i outcome => finishPageRender s i outcome
  | RenderOp.cancelAll => cancelAllRenderJobs s

/-- The scheduler state of a freshly loaded document. -/
def initialRenderState : RenderState :=
  { jobs := [], nextJobId := 0, cache := [], currentScale := 1, events := [] }

/-- Run a sequence of scheduler steps from the initial state. -/
def runRender (ops : List RenderOp) : RenderState :=
  ops.foldl renderStep initialRenderState

/-- State touched by generateThumbnail for one loaded document: the in
memory thumbnailCache entry of the current document hash, the set of page
indices whose thumbnail file exists on disk, the pendingThumbnails set,
one log entry per renderThumbnail rasterization started, and the emitted
events. -/
structure ThumbState where
  mem : List (Nat × String)
  disk : List Nat
  pending : List Nat
  rasterLog : List Nat
  events : List Event
  deriving DecidableEq, Repr

/-- thumbnailCache lookup for a page of the current document. -/
def memLookup (m : List (Nat × String)) (i : Nat) : Option String :=
  (m.find? (fun p => p.1 == i)).map (fun p => p.2)

/-- The file URI of the cached thumbnail of a page; the cache directory
and document hash segments are fixed for the one document modelled. -/
def thumbUri (page : Nat) : String :=
  "file://PDFThumbnails/thumb_" ++ toString page ++ ".jpg"

/-- The synchronous part of generateThumbnail(page) (lines 839-888) for a
document with pageCount pages: validate the index, serve from the memory
cache, else from the disk cache (also filling the memory cache), else
drop the request if the page is already pending, else add it to the
pending set and launch the generation coroutine, whose renderThumbnail
call is one rasterization. -/
def generateThumbnail (s : ThumbState) (pageCount : Nat) (page : Nat) :
    ThumbState :=
  if pageCount ≤ page then
    { s with events :=
        Event.error (invalidPageMessage page (pageCount - 1)) "INVALID_PAGE"
          :: s.events }
  else
    match memLookup s.mem page with
    | some uri => { s with events := Event.thumbnailGenerated page uri :: s.events }
    | none =>
      if s.disk.contains page then
        { s with mem := (page, thumbUri page) :: s.mem,
                 events := Event.thumbnailGenerated page (thumbUri page) :: s.events }
      else if s.pending.contains page then s
      else { s with pending := page :: s.pending, rasterLog := page :: s.rasterLog }

/-- The end of the generation coroutine for a page: on success the saved
file enters the disk and memory caches and the thumbnail event is
emitted; on failure a THUMBNAIL_ERROR event is emitted (the exception
text is abstracted away); the finally block removes the page from the
pending set in both cases. -/
def completeThumbnail (s : ThumbState) (page : Nat) (ok : Bool) : ThumbState :=
  let afterBody :=
    if ok then
      { s with disk := page :: s.disk,
               mem := (page, thumbUri page) :: s.mem,
               events := Event.thumbnailGenerated page (thumbUri page) :: s.events }
    else
      { s with events := Event.error "Thumbnail generation failed" "THUMBNAIL_ERROR"
                 :: s.events }
  { afterBody with pending := afterBody.pending.filter (fun j => j != page) }

/-- A thumbnail pipeline with empty caches and nothing pending. -/
def initialThumbState : ThumbState :=
  { mem := [], disk := [], pending := [], rasterLog := [], events := [] }

/-- Primitive operations on the shared native renderer, in program order,
as performed by the Kotlin functions that touch the document. -/
inductive NativeAction where
  | acquireRenderMutex
  | releaseRenderMutex
  | openPage (index : Option Nat)
  | renderIntoBitmap
  deriving DecidableEq, Repr

/-- Whether every openPage and render action of a trace happens while the
render mutex is held, scanning the trace with the given initial held
flag. -/
def pageAccessesUnderMutex : List NativeAction → Bool → Bool
  | [], _ => true
  | NativeAction.acquireRenderMutex :: rest, _ => pageAccessesUnderMutex rest true
  | NativeAction.releaseRenderMutex :: rest, _ => pageAccessesUnderMutex rest false
  | NativeAction.openPage _ :: rest, held => held && pageAccessesUnderMutex rest held
  | NativeAction.renderIntoBitmap :: rest, held => held && pageAccessesUnderMutex rest held

/-- loadFirstPageDimensions (lines 567-580): renderMutex.withLock around
openPage(0). -/
def loadFirstPageDimensionsTrace : List NativeAction :=
  [NativeAction.acquireRenderMutex, NativeAction.openPage (some 0),
   NativeAction.releaseRenderMutex]

/-- loadPageDimensionIfMissing (lines 637-650): renderMutex.withLock
around openPage(index). -/
def loadPageDimensionIfMissingTrace : List NativeAction :=
  [NativeAction.acquireRenderMutex, NativeAction.openPage none,
   NativeAction.releaseRenderMutex]

/-- getPageDimensions (lines 652-671): renderMutex.withLock around
openPage(pageIndex). -/
def getPageDimensionsTrace : List NativeAction :=
  [NativeAction.acquireRenderMutex, NativeAction.openPage none,
   NativeAction.releaseRenderMutex]

/-- renderThumbnail (lines 936-951): renderMutex.withLock around
openPage(pageIndex) and page.render. -/
def renderThumbnailTrace : List NativeAction :=
  [NativeAction.acquireRenderMutex, NativeAction.openPage none,
   NativeAction.renderIntoBitmap, NativeAction.releaseRenderMutex]

/-- renderPage (lines 1045-1072): renderMutex.withLock around
openPage(pageIndex) and page.render. -/
def renderPageTrace : List NativeAction :=
  [NativeAction.acquireRenderMutex, NativeAction.openPage none,
   NativeAction.renderIntoBitmap, NativeAction.releaseRenderMutex]

/-- getDocumentInfo (lines 818-833): renderer.openPage(0) with no
renderMutex acquisition anywhere in the function. -/
def getDocumentInfoTrace : List NativeAction :=
  [NativeAction.openPage (some 0)]

/-- The loaded five page document zoomed to scale 2.0. -/
def zoomedState5 : AndroidState :=
  { loadedState5 with currentScale := 2 }

/-- A scheduler state with one in flight job, for page 3. -/
def oneJobState : RenderState :=
  { jobs := [(3, 0)], nextJobId := 1, cache := [], currentScale := 1,
    events := [] }

theorem applyZoomTransform_currentScale (s : AndroidState) :
    (applyZoomTransform s).currentScale = s.currentScale := by
  unfold applyZoomTransform applyTranslation
  split <;> rfl

theorem applyZoomTransform_minScale (s : AndroidState) :
    (applyZoomTransform s).minScale = s.minScale := by
  unfold applyZoomTransform applyTranslation
  split <;> rfl

theorem applyZoomTransform_maxScale (s : AndroidState) :
    (applyZoomTransform s).maxScale = s.maxScale := by
  unfold applyZoomTransform applyTranslation
  split <;> rfl

theorem applyZoomTransform_enableZoom (s : AndroidState) :
    (applyZoomTransform s).enableZoom = s.enableZoom := by
  unfold applyZoomTransform applyTranslation
  split <;> rfl

/-- With zoom enabled, setScale reduces to the clamp and epsilon check. -/
theorem setScale_eq_of_zoom (s : AndroidState) (v : Rat)
    (hzoom : s.enableZoom = true) :
    setScale s v =
      if |coerceIn v s.minScale s.maxScale - s.currentScale| < 1 / 100 then
        ⟨s, []⟩
      else
        ⟨applyZoomTransform { s with currentScale := coerceIn v s.minScale s.maxScale },
         [Event.scaleChange (coerceIn v s.minScale s.maxScale)]⟩ := by
  unfold setScale
  rw [hzoom]
  simp

/-- C1 (code bug evidence): on the loaded five page document, goToPage(2)
scrolls to position 2, yet the page change event delivered to the host
carries page field 3 = 2 + 1, not 2, because emitPageChange invokes the
callback with page + 1 even though the repository README documents the
page field of PageChangeEvent as a 0-based index (and the iOS viewer
emits the 0-based index).  The invalid index branch behaves exactly as
the claim states: goToPage(5) and goToPage(-1) each emit only an
INVALID_PAGE error, scroll nowhere and emit no page change event. -/
theorem goToPage_event_page_field_off_by_one :
    (goToPage loadedState5 2).events = [Event.pageChange 3 5] ∧
    (goToPage loadedState5 2).scrolledTo = some 2 ∧
    Event.pageChange 2 5 ∉ (goToPage loadedState5 2).events ∧
    (goToPage loadedState5 5).events
      = [Event.error (invalidPageMessage 5 4) "INVALID_PAGE"] ∧
    (goToPage loadedState5 5).scrolledTo = none ∧
    (goToPage loadedState5 (-1)).events
      = [Event.error (invalidPageMessage (-1) 4) "INVALID_PAGE"] ∧
    (goToPage loadedState5 (-1)).scrolledTo = none := by
  decide

/-- C10: on the Android viewer, goToPage with a valid index while the
current scale differs from 1.0 resets the zoom state: the resulting
scale is exactly 1.0, both pan offsets are 0, and a scale change event
with value 1.0 is emitted before the page change that accompanies the
scroll to the requested page (the scroll itself is the scrolledTo
component). -/
theorem goToPage_valid_resets_zoom (s : AndroidState) (n page : Int)
    (hn : s.pageCount = some n) (hlo : 0 ≤ page) (hhi : page < n)
    (hscale : s.currentScale ≠ 1) :
    (goToPage s page).state.currentScale = 1 ∧
    (goToPage s page).state.translateX = 0 ∧
    (goToPage s page).state.translateY = 0 ∧
    (goToPage s page).events
      = [Event.scaleChange 1, Event.pageChange (page + 1) n] ∧
    (goToPage s page).scrolledTo = some page := by
  have hcond : ¬(page < 0 ∨ n ≤ page) := by
    push_neg
    exact ⟨hlo, hhi⟩
  unfold goToPage
  rw [hn]
  simp only [if_neg hcond, if_pos hscale]
  simp [resetZoomTransform, emitPageChange, hn]

/-- Witness for C10: navigating to page 1 of the zoomed five page
document. -/
theorem goToPage_valid_resets_zoom_witness :
    (goToPage zoomedState5 1).state.currentScale = 1 ∧
    (goToPage zoomedState5 1).state.translateX = 0 ∧
    (goToPage zoomedState5 1).state.translateY = 0 ∧
    (goToPage zoomedState5 1).events
      = [Event.scaleChange 1, Event.pageChange (1 + 1) 5] ∧
    (goToPage zoomedState5 1).scrolledTo = some 1 :=
  goToPage_valid_resets_zoom zoomedState5 5 1 rfl (by decide) (by decide)
    (by decide)

theorem coerceIn_initial_one :
    coerceIn 1 initialAndroidState.minScale initialAndroidState.maxScale = 1 := by
  simp only [initialAndroidState, coerceIn]
  norm_num [min_def, max_def]

theorem coerceIn_initial_two :
    coerceIn 2 initialAndroidState.minScale initialAndroidState.maxScale = 2 := by
  simp only [initialAndroidState, coerceIn]
  norm_num [min_def, max_def]

theorem coerceIn_initial_ten :
    coerceIn 10 initialAndroidState.minScale initialAndroidState.maxScale = 4 := by
  simp only [initialAndroidState, coerceIn]
  norm_num [min_def, max_def]

/-- Evaluation of setScale(1.0) on the fresh viewer: the clamped value
equals the current scale, so the call is a no-op. -/
theorem setScale_initial_one :
    setScale initialAndroidState 1 = ⟨initialAndroidState, []⟩ := by
  have h1 : |(1 : Rat) - initialAndroidState.currentScale| < 1 / 100 := by
    simp only [initialAndroidState]
    norm_num [abs_sub_lt_iff]
  rw [setScale_eq_of_zoom _ _ rfl, coerceIn_initial_one, if_pos h1]

/-- Evaluation of setScale(10.0) on the fresh viewer: the request clamps
to 4.0 and updates the scale. -/
theorem setScale_initial_ten :
    setScale initialAndroidState 10
      = ⟨applyZoomTransform { initialAndroidState with currentScale := 4 },
         [Event.scaleChange 4]⟩ := by
  have h1 : ¬(|(4 : Rat) - initialAndroidState.currentScale| < 1 / 100) := by
    simp only [initialAndroidState]
    norm_num [abs_sub_lt_iff]
  rw [setScale_eq_of_zoom _ _ rfl, coerceIn_initial_ten, if_neg h1]

/-- C2: with zoom enabled, consistent bounds and a current scale inside
them, the scale stored by setScale(x) stays within
[minScale, maxScale] for every x; and concretely, setScale(10.0) on the
fresh viewer (minScale 0.5, maxScale 4.0, scale 1.0) stores exactly 4.0
and emits exactly one scale change event with value 4.0. -/
theorem setScale_stays_within_bounds (s : AndroidState) (x : Rat)
    (hzoom : s.enableZoom = true)
    (hminmax : s.minScale ≤ s.maxScale)
    (hlo : s.minScale ≤ s.currentScale)
    (hhi : s.currentScale ≤ s.maxScale) :
    (s.minScale ≤ (setScale s x).state.currentScale ∧
      (setScale s x).state.currentScale ≤ s.maxScale) ∧
    (setScale initialAndroidState 10).state.currentScale = 4 ∧
    (setScale initialAndroidState 10).events = [Event.scaleChange 4] := by
  refine ⟨?_, ?_, ?_⟩
  · rw [setScale_eq_of_zoom s x hzoom]
    split
    · exact ⟨hlo, hhi⟩
    · rw [applyZoomTransform_currentScale]
      exact ⟨le_max_left _ _, max_le hminmax (min_le_left _ _)⟩
  · rw [setScale_initial_ten]
    exact applyZoomTransform_currentScale _
  · rw [setScale_initial_ten]

/-- Witness for C2: setScale(10.0) on the loaded five page document. -/
theorem setScale_stays_within_bounds_witness :
    (loadedState5.minScale ≤ (setScale loadedState5 10).state.currentScale ∧
      (setScale loadedState5 10).state.currentScale ≤ loadedState5.maxScale) ∧
    (setScale initialAndroidState 10).state.currentScale = 4 ∧
    (setScale initialAndroidState 10).events = [Event.scaleChange 4] :=
  setScale_stays_within_bounds loadedState5 10 rfl
    (by simp only [loadedState5, initialAndroidState]; norm_num)
    (by simp only [loadedState5, initialAndroidState]; norm_num)
    (by simp only [loadedState5, initialAndroidState]; norm_num)

/-- C3 counterexample: with zoom enabled, calling setScale(1.0) twice in
a row on the freshly constructed viewer (current scale already 1.0)
emits no scale change event at all, not exactly one: both calls fall
into the epsilon no-op branch. -/
theorem setScale_twice_zero_events :
    (setScale initialAndroidState 1).events = [] ∧
    (setScale (setScale initialAndroidState 1).state 1).events = [] ∧
    ((setScale initialAndroidState 1).events ++
        (setScale (setScale initialAndroidState 1).state 1).events).length
      ≠ 1 := by
  simp [setScale_initial_one]

/-- C3 (amended): with zoom enabled, calling setScale(v) twice in a row
emits at most one scale change event; the second call is always a no-op
(its clamped value differs from the then current scale by less than the
0.01 epsilon), and exactly one event, carrying the clamped value, is
emitted when the first call changes the scale, i.e. when the clamped
value differs from the current scale by at least 0.01. -/
theorem setScale_repeat_at_most_one_event (s : AndroidState) (v : Rat)
    (hzoom : s.enableZoom = true) :
    (setScale (setScale s v).state v).state = (setScale s v).state ∧
    (setScale (setScale s v).state v).events = [] ∧
    ((setScale s v).events ++ (setScale (setScale s v).state v).events).length
      ≤ 1 ∧
    (1 / 100 ≤ |coerceIn v s.minScale s.maxScale - s.currentScale| →
      (setScale s v).events
        = [Event.scaleChange (coerceIn v s.minScale s.maxScale)]) := by
  rw [setScale_eq_of_zoom s v hzoom]
  by_cases h : |coerceIn v s.minScale s.maxScale - s.currentScale| < 1 / 100
  · rw [if_pos h]
    rw [setScale_eq_of_zoom s v hzoom, if_pos h]
    exact ⟨rfl, rfl, by simp, fun hge => absurd h (not_lt.mpr hge)⟩
  · rw [if_neg h]
    have hz2 : (applyZoomTransform
        { s with currentScale := coerceIn v s.minScale s.maxScale }).enableZoom
        = true := by
      rw [applyZoomTransform_enableZoom]
      exact hzoom
    rw [setScale_eq_of_zoom _ v hz2]
    rw [applyZoomTransform_minScale, applyZoomTransform_maxScale,
      applyZoomTransform_currentScale]
    rw [if_pos (by rw [sub_self, abs_zero]; norm_num :
      |coerceIn v s.minScale s.maxScale
        - coerceIn v s.minScale s.maxScale| < 1 / 100)]
    exact ⟨rfl, rfl, by simp, fun _ => rfl⟩

/-- Witness for C3 (amended): setScale(2.0) twice on the fresh viewer. -/
theorem setScale_repeat_at_most_one_event_witness :
    (setScale (setScale initialAndroidState 2).state 2).state
      = (setScale initialAndroidState 2).state ∧
    (setScale (setScale initialAndroidState 2).state 2).events = [] ∧
    (setScale initialAndroidState 2).events = [Event.scaleChange 2] := by
  have h := setScale_repeat_at_most_one_event initialAndroidState 2 rfl
  refine ⟨h.1, h.2.1, ?_⟩
  have hge : 1 / 100 ≤ |coerceIn 2 initialAndroidState.minScale
      initialAndroidState.maxScale - initialAndroidState.currentScale| := by
    rw [coerceIn_initial_two]
    simp only [initialAndroidState]
    rw [← not_lt]
    norm_num [abs_sub_lt_iff]
  rw [h.2.2.2 hge, coerceIn_initial_two]

/-- C4: for every remote fetch environment, a present cache entry means
the resolver never propagates the fetch exception; in particular a
failed fetch (timeouts included) with a cache entry present returns the
stale cached file; an exception propagates only when no cache entry
exists; and a successful fetch is written to the temp file and renamed
onto the cache entry, returning the fresh download. -/
theorem downloadPdf_soft_fail (env : NetworkEnv) :
    (env.cacheExists = true →
      (downloadPdf env).result ≠ DownloadResult.exceptionPropagated) ∧
    (env.cacheExists = true → env.fetchOk = false →
      (downloadPdf env).result = DownloadResult.ok ResolvedFile.cached) ∧
    ((downloadPdf env).result = DownloadResult.exceptionPropagated →
      env.cacheExists = false) ∧
    (env.fetchOk = true → (downloadPdf env).fetchAttempted = true →
      (downloadPdf env).renamedTempOntoCache = true ∧
      (downloadPdf env).result = DownloadResult.ok ResolvedFile.downloaded) := by
  rcases env with ⟨ce, cf, fo⟩
  cases ce <;> cases cf <;> cases fo <;> simp [downloadPdf]

/-- Witness for C4: a stale cache entry with a failing fetch falls back
to the cached file, and a cache miss with a working fetch renames the
temp file onto the cache entry. -/
theorem downloadPdf_soft_fail_witness :
    (downloadPdf ⟨true, false, false⟩).result
      = DownloadResult.ok ResolvedFile.cached ∧
    (downloadPdf ⟨false, false, true⟩).renamedTempOntoCache = true ∧
    (downloadPdf ⟨false, false, true⟩).result
      = DownloadResult.ok ResolvedFile.downloaded := by
  have h1 := downloadPdf_soft_fail ⟨true, false, false⟩
  have h2 := downloadPdf_soft_fail ⟨false, false, true⟩
  exact ⟨h1.2.1 rfl rfl, (h2.2.2.2 rfl rfl).1, (h2.2.2.2 rfl rfl).2⟩

/-- C5 counterexample: the locator content://media/doc.pdf carries a
scheme that is neither file nor http nor https, yet the Android resolver
maps it to a direct file open of the locator itself rather than failing
(no Android branch produces an unsupported scheme error at all); and a
source with no scheme at all (URL(string:) yields nothing usable) is
resolved on iOS to a file URL and routed to the local open, not to the
UnsupportedScheme error. -/
theorem unsupported_scheme_opened_as_file :
    downloadOrGetFile "content://media/doc.pdf"
      = SourceAction.openLocalFile "content://media/doc.pdf" ∧
    resolveURL none = ⟨some "file", true⟩ ∧
    iosSchemeGuard (resolveURL none) = IosRoute.local := by
  refine ⟨by decide, rfl, rfl⟩

/-- C5 (amended): the UnsupportedScheme rejection exists only on iOS and
only for locators that parse to a non file URL whose scheme is neither
http nor https; such locators are rejected before any open.  On Android
every locator that does not start with file://, http:// or https:// is
treated as a plain local file path and opened directly, with no
unsupported scheme error. -/
theorem scheme_dispatch (uri : String) (url : ParsedURL)
    (h1 : kotlinStartsWith uri "file://" = false)
    (h2 : kotlinStartsWith uri "http://" = false)
    (h3 : kotlinStartsWith uri "https://" = false)
    (hf : url.isFileURL = false)
    (hh : url.scheme.getD "" ≠ "http")
    (hs : url.scheme.getD "" ≠ "https") :
    downloadOrGetFile uri = SourceAction.openLocalFile uri ∧
    iosSchemeGuard url = IosRoute.unsupportedScheme (url.scheme.getD "") := by
  constructor
  · unfold downloadOrGetFile
    rw [h1, h2, h3]
    rfl
  · unfold iosSchemeGuard
    rw [hf]
    rw [if_neg]
    simp [hh, hs]

/-- Witness for C5 (amended): a content scheme locator on Android and an
ftp URL on iOS. -/
theorem scheme_dispatch_witness :
    downloadOrGetFile "content://media/doc.pdf"
      = SourceAction.openLocalFile "content://media/doc.pdf" ∧
    iosSchemeGuard ⟨some "ftp", false⟩ = IosRoute.unsupportedScheme "ftp" := by
  have h := scheme_dispatch "content://media/doc.pdf" ⟨some "ftp", false⟩
    (by decide) (by decide) (by decide) rfl (by decide) (by decide)
  exact ⟨h.1, h.2⟩

theorem any_filter_ne_self (l : List (Nat × Nat)) (i : Nat) :
    ((l.filter (fun p => p.1 != i)).any (fun p => p.1 == i)) = false := by
  rw [Bool.eq_false_iff]
  intro h
  rcases List.any_eq_true.mp h with ⟨p, hp, hpi⟩
  rcases List.mem_filter.mp hp with ⟨-, hne⟩
  exact absurd (by simpa using hpi) (by simpa using hne)

theorem contains_filter_ne_self (l : List Nat) (i : Nat) :
    (l.filter (fun j => j != i)).contains i = false := by
  rw [Bool.eq_false_iff]
  intro h
  simp at h

theorem renderStep_keys_nodup (s : RenderState) (op : RenderOp)
    (h : (s.jobs.map Prod.fst).Nodup) :
    ((renderStep s op).jobs.map Prod.fst).Nodup := by
  cases op with
  | start i =>
    by_cases hj : hasJob s i = true
    · simpa [renderStep, startPageRender, hj] using h
    · have hi : i ∉ s.jobs.map Prod.fst := by
        intro hmem
        rcases List.mem_map.mp hmem with ⟨p, hp, hpi⟩
        apply hj
        simp only [hasJob, List.any_eq_true]
        exact ⟨p, hp, by simp [hpi]⟩
      simp only [renderStep, startPageRender, hj, if_false, Bool.false_eq_true]
      simp only [List.map_cons, List.nodup_cons]
      exact ⟨hi, h⟩
  | finish i outcome =>
    have hjobs : (finishPageRender s i outcome).jobs
        = s.jobs.filter (fun p => p.1 != i) := by
      cases outcome <;> rfl
    show ((finishPageRender s i outcome).jobs.map Prod.fst).Nodup
    rw [hjobs]
    exact ((List.filter_sublist s.jobs).map Prod.fst).nodup h
  | cancelAll =>
    simp [renderStep, cancelAllRenderJobs]

theorem runRender_keys_nodup_from (ops : List RenderOp) (s : RenderState)
    (h : (s.jobs.map Prod.fst).Nodup) :
    ((ops.foldl renderStep s).jobs.map Prod.fst).Nodup := by
  induction ops generalizing s with
  | nil => exact h
  | cons op rest ih => exact ih _ (renderStep_keys_nodup s op h)

/-- C6: after any sequence of scheduler operations from the fresh state,
the active job map holds at most one job per page index (its key list
has no duplicates); startPageRender for an index already in the map is a
no-op that launches nothing; completing, failing or cancelling removes
the index from the map. -/
theorem render_job_dedup :
    (∀ ops : List RenderOp, ((runRender ops).jobs.map Prod.fst).Nodup) ∧
    (∀ (s : RenderState) (i : Nat), hasJob s i = true →
      startPageRender s i = s) ∧
    (∀ (s : RenderState) (i : Nat) (outcome : RenderOutcome),
      hasJob (finishPageRender s i outcome) i = false) ∧
    (∀ s : RenderState, (cancelAllRenderJobs s).jobs = []) := by
  refine ⟨?_, ?_, ?_, ?_⟩
  · intro ops
    exact runRender_keys_nodup_from ops initialRenderState (by simp [initialRenderState])
  · intro s i hj
    simp [startPageRender, hj]
  · intro s i outcome
    have hjobs : (finishPageRender s i outcome).jobs
        = s.jobs.filter (fun p => p.1 != i) := by
      cases outcome <;> rfl
    simp only [hasJob]
    rw [hjobs]
    exact any_filter_ne_self s.jobs i
  · intro s
    rfl

/-- Witness for C6: a duplicate start for page 3 while its job is in
flight is dropped; a demo trace keeps the key list duplicate free; and
finishing page 3 removes it from the map. -/
theorem render_job_dedup_witness :
    startPageRender oneJobState 3 = oneJobState ∧
    ((runRender [RenderOp.start 0, RenderOp.start 0,
        RenderOp.start 1]).jobs.map Prod.fst).Nodup ∧
    hasJob (finishPageRender oneJobState 3 RenderOutcome.renderError) 3
      = false := by
  refine ⟨render_job_dedup.2.1 oneJobState 3 (by decide),
    render_job_dedup.1 _, render_job_dedup.2.2.1 oneJobState 3 _⟩

/-- C8: finishing the render job of page i with an out of memory outcome
evicts the entire bitmap cache, emits exactly one OOM_ERROR event whose
message names the current scale, removes the job for i from the active
map without adding any replacement (no retry), leaves i absent from the
cache, and leaves i schedulable: a later startPageRender(i) launches a
job again. -/
theorem oom_render_failure (s : RenderState) (i : Nat) :
    (finishPageRender s i RenderOutcome.outOfMemory).cache = [] ∧
    (finishPageRender s i RenderOutcome.outOfMemory).events
      = Event.error (oomMessage s.currentScale) "OOM_ERROR" :: s.events ∧
    (finishPageRender s i RenderOutcome.outOfMemory).jobs
      = s.jobs.filter (fun p => p.1 != i) ∧
    hasJob (finishPageRender s i RenderOutcome.outOfMemory) i = false ∧
    cacheLookup (finishPageRender s i RenderOutcome.outOfMemory) i = none ∧
    hasJob
      (startPageRender (finishPageRender s i RenderOutcome.outOfMemory) i) i
      = true := by
  have hjobs : (finishPageRender s i RenderOutcome.outOfMemory).jobs
      = s.jobs.filter (fun p => p.1 != i) := rfl
  have hnj : hasJob (finishPageRender s i RenderOutcome.outOfMemory) i
      = false := by
    simp only [hasJob]
    rw [hjobs]
    exact any_filter_ne_self s.jobs i
  refine ⟨rfl, rfl, hjobs, hnj, rfl, ?_⟩
  unfold startPageRender
  rw [if_neg (by simp [hnj])]
  simp [hasJob]

/-- C7: when the thumbnail of a valid page is in no cache and not
pending, the first generateThumbnail request starts exactly one
rasterization and emits nothing yet; a second request issued while the
page sits in the pending set is dropped entirely (no second
rasterization, no event); the completion removes the page from the
pending set (on failure as well) and emits the thumbnail event for the
page exactly once. -/
theorem generateThumbnail_pending_dedup (s : ThumbState) (n page : Nat)
    (hval : page < n)
    (hmem : memLookup s.mem page = none)
    (hdisk : s.disk.contains page = false)
    (hpend : s.pending.contains page = false) :
    generateThumbnail (generateThumbnail s n page) n page
      = generateThumbnail s n page ∧
    (generateThumbnail (generateThumbnail s n page) n page).rasterLog.count
        page
      = s.rasterLog.count page + 1 ∧
    (generateThumbnail s n page).events = s.events ∧
    (∀ ok : Bool,
      ((completeThumbnail (generateThumbnail s n page) page ok).pending.contains
        page) = false) ∧
    (completeThumbnail (generateThumbnail s n page) page true).events
      = Event.thumbnailGenerated page (thumbUri page) :: s.events := by
  have hdisk2 : page ∉ s.disk := by simpa using hdisk
  have hpend2 : page ∉ s.pending := by simpa using hpend
  have hs1 : generateThumbnail s n page
      = { s with pending := page :: s.pending,
                 rasterLog := page :: s.rasterLog } := by
    unfold generateThumbnail
    rw [if_neg (not_le.mpr hval), hmem]
    simp [hdisk2, hpend2]
  have hs2 : generateThumbnail (generateThumbnail s n page) n page
      = generateThumbnail s n page := by
    rw [hs1]
    unfold generateThumbnail
    rw [if_neg (not_le.mpr hval)]
    simp [hmem, hdisk2]
  refine ⟨hs2, ?_, ?_, ?_, ?_⟩
  · rw [hs2, hs1]
    simp
  · rw [hs1]
  · intro ok
    rw [hs1]
    cases ok <;> exact contains_filter_ne_self (page :: s.pending) page
  · rw [hs1]
    rfl

/-- Witness for C7: page 2 of a five page document on the fresh
pipeline. -/
theorem generateThumbnail_pending_dedup_witness :
    generateThumbnail (generateThumbnail initialThumbState 5 2) 5 2
      = generateThumbnail initialThumbState 5 2 ∧
    (generateThumbnail (generateThumbnail initialThumbState 5 2) 5
        2).rasterLog.count 2
      = initialThumbState.rasterLog.count 2 + 1 ∧
    ((completeThumbnail (generateThumbnail initialThumbState 5 2) 2
        true).pending.contains 2) = false ∧
    ((completeThumbnail (generateThumbnail initialThumbState 5 2) 2
        false).pending.contains 2) = false ∧
    (completeThumbnail (generateThumbnail initialThumbState 5 2) 2
        true).events
      = Event.thumbnailGenerated 2 (thumbUri 2) :: initialThumbState.events := by
  have h := generateThumbnail_pending_dedup initialThumbState 5 2
    (by decide) rfl rfl rfl
  exact ⟨h.1, h.2.1, h.2.2.2.1 true, h.2.2.2.1 false, h.2.2.2.2⟩

/-- C9 (code bug evidence): of the six Kotlin functions that read pages
of the native document, five perform every openPage and render action
inside renderMutex.withLock, but getDocumentInfo opens page 0 with the
render mutex not held, contradicting the stated mutual exclusion
discipline. -/
theorem getDocumentInfo_reads_outside_mutex :
    pageAccessesUnderMutex getDocumentInfoTrace false = false ∧
    pageAccessesUnderMutex loadFirstPageDimensionsTrace false = true ∧
    pageAccessesUnderMutex loadPageDimensionIfMissingTrace false = true ∧
    pageAccessesUnderMutex getPageDimensionsTrace false = true ∧
    pageAccessesUnderMutex renderThumbnailTrace false = true ∧
    pageAccessesUnderMutex renderPageTrace false = true := by
  decide

end PdfViewer
